import Mathlib

/-!
Verification of the rsfbclient core connection / transaction / query pipeline
(src/src/connection/mod.rs) and of the native backend client
(src/rsfbclient-native/src/connection.rs).

The Rust code is shallowly embedded: every backend or cache sub-operation the
core invokes (begin transaction, prepare, execute, insert into the statement
cache, commit, ...) is represented by an oracle value giving the outcome that
call would return, and each embedded function returns its own result together
with the ordered list of sub-operations it invoked (its call trace).  The
control flow of the embedded functions is translated line by line from the
Rust source; the modules of this crate that are not part of the sources at
hand (transaction.rs, statement.rs, stmt_cache.rs) appear only through the
outcomes of their operations, which the spec describes, so those outcomes are
left fully general.
-/

namespace Rsfbclient

/-- Error type of the client (rsfbclient_core::FbError): a backend-defined
code and message. -/
structure FbError where
  code : Int
  msg : String
deriving Repr, DecidableEq

deriving instance DecidableEq for Except

/-- Transaction operations (rsfbclient_core::TrOp), as consumed by
NativeFbClient::transaction_operation. -/
inductive TrOp
  | commit
  | commitRetaining
  | rollback
  | rollbackRetaining
deriving Repr, DecidableEq

/-- Free-statement operations (rsfbclient_core::FreeStmtOp): close the open
cursor, or drop the whole statement. -/
inductive FreeStmtOp
  | close
  | drop
deriving Repr, DecidableEq

/-- Observable sub-operations invoked by the core pipeline functions of
src/src/connection/mod.rs.  A call trace is a list of these, in invocation
order. -/
inductive Ev
  /-- Transaction::new: backend begin-transaction round trip. -/
  | beginEv
  /-- StmtCache::get_or_prepare: cache lookup, preparing on a miss. -/
  | getOrPrepareEv
  /-- StatementData::execute: backend execute of the prepared statement. -/
  | executeEv
  /-- StatementData::execute2: backend execute returning a single row. -/
  | execute2Ev
  /-- StatementData::query: backend execute opening a cursor. -/
  | queryEv
  /-- StatementData::fetch: one backend fetch round trip. -/
  | fetchEv
  /-- FromRow::try_from: conversion of a fetched row to the output type. -/
  | convertEv
  /-- StmtCache::insert_and_close: return a checked-out statement to the cache. -/
  | insertAndCloseEv
  /-- StatementData::close_cursor: backend free-statement with the close op. -/
  | closeCursorEv
  /-- The user closure given to Connection::with_transaction runs. -/
  | closureEv
  /-- A Transaction finalization round trip with the given operation. -/
  | trOpEv (op : TrOp)
  /-- StmtCache::close_all: close every available cached statement. -/
  | closeAllEv
  /-- FirebirdClient::detach_database on the connection handle. -/
  | detachEv
deriving Repr, DecidableEq

/-- Oracle for the outcomes of the sub-operations invoked by the one-shot
pipeline Connection::execute (src/src/connection/mod.rs lines 254-280).
Each field is the result the corresponding call would return; the embedded
control flow below decides what is invoked and what the caller sees. -/
structure ExecEnv where
  /-- Outcome of Transaction::new (backend begin transaction). -/
  beginRes : Except FbError Unit
  /-- Outcome of StmtCache::get_or_prepare. -/
  prepRes : Except FbError Unit
  /-- Outcome of StatementData::execute. -/
  execRes : Except FbError Unit
  /-- Outcome of StmtCache::insert_and_close. -/
  insertRes : Except FbError Unit
  /-- Outcome of tr.commit (backend commit round trip). -/
  commitRes : Except FbError Unit
deriving Repr, DecidableEq

/-- Shallow embedding of Connection::execute (impl Execute, src/src/connection/mod.rs
lines 254-280).  Translated control flow:
`let mut tr = Transaction::new(self)?;` then
`get_or_prepare(...)?;` then
`let res = stmt_cache_data.stmt.execute(...);` (no early return, per the
source comment: the statement must be returned to the cache), then
`insert_and_close(...)?;` then `res?;` then `tr.commit()?;`.
Returns the result the caller sees together with the call trace. -/
def connExecute (env : ExecEnv) : Except FbError Unit × List Ev :=
  match env.beginRes with
  | .error e => (.error e, [.beginEv])
  | .ok _ =>
    match env.prepRes with
    | .error e => (.error e, [.beginEv, .getOrPrepareEv])
    | .ok _ =>
      -- the execute outcome is held in `res`, not returned early
      let res := env.execRes
      match env.insertRes with
      | .error e =>
        -- `insert_and_close(...)?` propagates the cache-return error,
        -- even when `res` holds the primary execution error
        (.error e, [.beginEv, .getOrPrepareEv, .executeEv, .insertAndCloseEv])
      | .ok _ =>
        match res with
        | .error e =>
          (.error e, [.beginEv, .getOrPrepareEv, .executeEv, .insertAndCloseEv])
        | .ok _ =>
          match env.commitRes with
          | .error e =>
            (.error e,
              [.beginEv, .getOrPrepareEv, .executeEv, .insertAndCloseEv,
                .trOpEv .commit])
          | .ok _ =>
            (.ok (),
              [.beginEv, .getOrPrepareEv, .executeEv, .insertAndCloseEv,
                .trOpEv .commit])

/-- Oracle for the sub-operations of Queryable::query_iter
(src/src/connection/mod.rs lines 210-247) up to the construction of the
iterator. -/
structure QueryEnv where
  /-- Outcome of Transaction::new. -/
  beginRes : Except FbError Unit
  /-- Outcome of StmtCache::get_or_prepare. -/
  prepRes : Except FbError Unit
  /-- Outcome of StatementData::query (the execute that opens the cursor). -/
  queryRes : Except FbError Unit
  /-- Outcome of StmtCache::insert_and_close on the error path. -/
  insertRes : Except FbError Unit
deriving Repr, DecidableEq

/-- Shallow embedding of Queryable::query_iter (src/src/connection/mod.rs
lines 210-247).  On success the StmtIter is built (modelled as `.ok ()`;
its later behaviour is `stmtIterNext` and `stmtIterDropTrace` below).  On a
query failure the statement is first returned to the cache with
`insert_and_close(...)?`, whose own error is propagated, and only then is
the query error returned. -/
def queryIter (env : QueryEnv) : Except FbError Unit × List Ev :=
  match env.beginRes with
  | .error e => (.error e, [.beginEv])
  | .ok _ =>
    match env.prepRes with
    | .error e => (.error e, [.beginEv, .getOrPrepareEv])
    | .ok _ =>
      match env.queryRes with
      | .ok _ => (.ok (), [.beginEv, .getOrPrepareEv, .queryEv])
      | .error e =>
        match env.insertRes with
        | .error e2 =>
          -- `insert_and_close(...)?` masks the primary query error
          (.error e2, [.beginEv, .getOrPrepareEv, .queryEv, .insertAndCloseEv])
        | .ok _ =>
          (.error e, [.beginEv, .getOrPrepareEv, .queryEv, .insertAndCloseEv])

/-- Outcomes of the three teardown sub-operations run by the Drop impl of
StmtIter (src/src/connection/mod.rs lines 162-186).  Every combination is
possible; the drop body discards each result with `.ok()`. -/
structure TeardownEnv where
  /-- Outcome of StatementData::close_cursor. -/
  closeCursorRes : Except FbError Unit
  /-- Outcome of StmtCache::insert_and_close. -/
  insertRes : Except FbError Unit
  /-- Outcome of tr.commit_retaining. -/
  commitRetRes : Except FbError Unit
deriving Repr, DecidableEq

/-- Shallow embedding of the Drop impl of StmtIter (src/src/connection/mod.rs
lines 162-186).  The body makes three calls, each discarding its error with
`.ok()`: close the cursor, return the statement to the cache, commit-retain
the transaction.  Because every result is discarded, each call runs whatever
the previous ones returned; the trace below therefore does not depend on the
outcomes in `env`, which is exactly the swallowing behaviour of the source. -/
def stmtIterDropTrace (env : TeardownEnv) : List Ev :=
  let _ := env.closeCursorRes  -- `.ok()`: result discarded
  let _ := env.insertRes       -- `.ok()`: result discarded
  let _ := env.commitRetRes    -- `.ok()`: result discarded
  [.closeCursorEv, .insertAndCloseEv, .trOpEv .commitRetaining]

/-- Full lifecycle trace of one StmtIter after a successful query_iter: the
caller advances the iterator some number of times (each advance is one
StatementData::fetch call, whatever it returns: a row, end of data, or an
error), and then the iterator is dropped — by exhaustion of a for loop, by
early abandonment, or explicitly.  Rust runs the Drop impl exactly once at
that point, whichever way the iteration ended; `fetchOutcomes` lists the
outcome of each advance that happened before the drop. -/
def iterLifecycle (fetchOutcomes : List (Except FbError (Option (List Int))))
    (env : TeardownEnv) : List Ev :=
  fetchOutcomes.map (fun _ => Ev.fetchEv) ++ stmtIterDropTrace env

/-- Shallow embedding of the Iterator impl of StmtIter
(src/src/connection/mod.rs lines 188-204).  The Rust body is
`fetch(...).and_then(|row| row.map(FromRow::try_from).transpose()).transpose()`:
a single fetch call, then pure combinators.  `fetchRes` is the outcome of
that one StatementData::fetch call and `conv` the FromRow conversion. -/
def stmtIterNext {R : Type} (fetchRes : Except FbError (Option (List Int)))
    (conv : List Int → Except FbError R) : Option (Except FbError R) :=
  match fetchRes with
  | .error e => some (.error e)
  | .ok none => none
  | .ok (some row) =>
    match conv row with
    | .error e => some (.error e)
    | .ok r => some (.ok r)

/-- Call trace of one StmtIter::next advance (src/src/connection/mod.rs lines
195-203): the body makes exactly one StatementData::fetch call, and the only
other non-pure step is the FromRow conversion, which runs exactly when the
fetch produced a row. -/
def stmtIterNextCallTrace (fetchRes : Except FbError (Option (List Int))) :
    List Ev :=
  Ev.fetchEv ::
    (match fetchRes with
      | .ok (some _) => [Ev.convertEv]
      | _ => [])

/-- Oracle for the sub-operations of Connection::with_transaction
(src/src/connection/mod.rs lines 126-141).  The closure is represented by
the result it returns when run. -/
structure WithTrEnv (T : Type) where
  /-- Outcome of Transaction::new. -/
  beginRes : Except FbError Unit
  /-- Result of running the user closure on the open transaction. -/
  closureRes : Except FbError T
  /-- Outcome of tr.commit_retaining. -/
  commitRetRes : Except FbError Unit
  /-- Outcome of tr.rollback_retaining. -/
  rollbackRetRes : Except FbError Unit
deriving Repr, DecidableEq

/-- Shallow embedding of Connection::with_transaction (src/src/connection/mod.rs
lines 126-141): `let mut tr = Transaction::new(self)?; let res = closure(&mut tr);
if res.is_ok() { tr.commit_retaining()?; } else { tr.rollback_retaining()?; }; res`.
Note the `?` on both retaining calls: their error is returned instead of the
result of the closure when they fail. -/
def withTransaction {T : Type} (env : WithTrEnv T) : Except FbError T × List Ev :=
  match env.beginRes with
  | .error e => (.error e, [.beginEv])
  | .ok _ =>
    match env.closureRes with
    | .ok v =>
      match env.commitRetRes with
      | .error e => (.error e, [.beginEv, .closureEv, .trOpEv .commitRetaining])
      | .ok _ => (.ok v, [.beginEv, .closureEv, .trOpEv .commitRetaining])
    | .error e0 =>
      match env.rollbackRetRes with
      | .error e => (.error e, [.beginEv, .closureEv, .trOpEv .rollbackRetaining])
      | .ok _ => (.error e0, [.beginEv, .closureEv, .trOpEv .rollbackRetaining])

/-- Oracle for the sub-operations of Execute::execute_returnable
(src/src/connection/mod.rs lines 282-309).  `T` is the row shape returned by
execute2 and `R` the output type of the caller. -/
structure ExecRetEnv (T R : Type) where
  /-- Outcome of Transaction::new. -/
  beginRes : Except FbError Unit
  /-- Outcome of StmtCache::get_or_prepare. -/
  prepRes : Except FbError Unit
  /-- Outcome of StatementData::execute2: execution plus retrieval of the
  single returned row. -/
  exec2Res : Except FbError T
  /-- Outcome of StmtCache::insert_and_close. -/
  insertRes : Except FbError Unit
  /-- Outcome of FromRow::try_from on the retrieved row. -/
  convRes : T → Except FbError R
  /-- Outcome of tr.commit. -/
  commitRes : Except FbError Unit

/-- Shallow embedding of Execute::execute_returnable (src/src/connection/mod.rs
lines 282-309): `let res = stmt.execute2(...);` (held, not returned early),
`insert_and_close(...)?;`, `let f_res = FromRow::try_from(res?)?;`,
`tr.commit()?;`, `Ok(f_res)`.  The retrieved row is converted before the
commit round trip. -/
def connExecuteReturnable {T R : Type} (env : ExecRetEnv T R) :
    Except FbError R × List Ev :=
  match env.beginRes with
  | .error e => (.error e, [.beginEv])
  | .ok _ =>
    match env.prepRes with
    | .error e => (.error e, [.beginEv, .getOrPrepareEv])
    | .ok _ =>
      let res := env.exec2Res
      match env.insertRes with
      | .error e =>
        (.error e, [.beginEv, .getOrPrepareEv, .execute2Ev, .insertAndCloseEv])
      | .ok _ =>
        match res with
        | .error e =>
          (.error e, [.beginEv, .getOrPrepareEv, .execute2Ev, .insertAndCloseEv])
        | .ok row =>
          match env.convRes row with
          | .error e =>
            (.error e,
              [.beginEv, .getOrPrepareEv, .execute2Ev, .insertAndCloseEv,
                .convertEv])
          | .ok r =>
            match env.commitRes with
            | .error e =>
              (.error e,
                [.beginEv, .getOrPrepareEv, .execute2Ev, .insertAndCloseEv,
                  .convertEv, .trOpEv .commit])
            | .ok _ =>
              (.ok r,
                [.beginEv, .getOrPrepareEv, .execute2Ev, .insertAndCloseEv,
                  .convertEv, .trOpEv .commit])

/-- Oracle for Connection teardown (src/src/connection/mod.rs lines 109-122
and 144-149): close_all discards its errors internally, so only the detach
outcome matters for the result. -/
structure ConnEnv where
  /-- Outcome of FirebirdClient::detach_database on the connection handle. -/
  detachRes : Except FbError Unit
deriving Repr, DecidableEq

/-- Shallow embedding of Connection::cleanup_and_detach
(src/src/connection/mod.rs lines 116-122): close every available cached
statement (result not inspected), then detach the database handle,
propagating the detach outcome. -/
def cleanupAndDetach (env : ConnEnv) : Except FbError Unit × List Ev :=
  match env.detachRes with
  | .error e => (.error e, [.closeAllEv, .detachEv])
  | .ok _ => (.ok (), [.closeAllEv, .detachEv])

/-- Shallow embedding of Connection::close (src/src/connection/mod.rs lines
109-113): `let res = self.cleanup_and_detach(); ManuallyDrop::new(self); res`.
The third component records whether the value was wrapped in ManuallyDrop,
i.e. whether the destructor is suppressed from running at end of scope. -/
def connClose (env : ConnEnv) : Except FbError Unit × List Ev × Bool :=
  let r := cleanupAndDetach env
  (r.1, r.2, true)

/-- Shallow embedding of the Drop impl of Connection (src/src/connection/mod.rs
lines 144-149): run cleanup_and_detach, ignoring the possible error value. -/
def connDropTrace (env : ConnEnv) : List Ev :=
  (cleanupAndDetach env).2

/-- Lifecycle of a Connection on which close() is called: the close call
itself, followed by whatever the destructor does at end of scope — nothing
when close() wrapped the value in ManuallyDrop, the Drop teardown otherwise.
Returns the close() result and the combined trace. -/
def closeLifecycle (env : ConnEnv) : Except FbError Unit × List Ev :=
  let c := connClose env
  (c.1, c.2.1 ++ (if c.2.2 then [] else connDropTrace env))

/-- A typed column value produced by one fetch.  The claims under study never
inspect column payloads, so the value is abstracted to an integer tag. -/
def Column : Type := Int

deriving instance Repr, DecidableEq for Column

/-- Model of the rsfbclient-native ColumnBuffer, reduced to the one capability
the fetch path uses: `to_column`, which may fail with a conversion error
(src/rsfbclient-native/src/connection.rs lines 384-387). -/
structure ColumnBuffer where
  /-- Outcome of ColumnBuffer::to_column for this buffer. -/
  toColumnRes : Except FbError Column
deriving Repr, DecidableEq

/-- State of the native client that the fetch and free_statement paths read:
the `stmt_data_map` from statement handle to its output buffers
(src/rsfbclient-native/src/connection.rs line 15), as an association list
with the handle as key. -/
structure NativeSt where
  stmtDataMap : List (Nat × List ColumnBuffer)
deriving Repr, DecidableEq

/-- Lookup of a statement handle in the stmt_data_map of the native client
(HashMap::get in the source). -/
def NativeSt.lookup (st : NativeSt) (h : Nat) : Option (List ColumnBuffer) :=
  (st.stmtDataMap.find? (fun p => p.1 = h)).map (fun p => p.2)

/-- Shallow embedding of NativeFbClient::fetch
(src/rsfbclient-native/src/connection.rs lines 361-390).  `wireStatus` is the
status code the one isc_dsql_fetch wire call would return and `statusErr` the
FbError built from the status vector when that code is a failure.  Control
flow: look the handle up in stmt_data_map, failing with the
dropped-statement error when absent; make the wire fetch; status 100 means
no more rows (Ok(None)); any other nonzero status is an error; otherwise
convert every column buffer, collecting the first conversion error. -/
def nativeFetch (st : NativeSt) (wireStatus : Int) (statusErr : FbError)
    (h : Nat) : Except FbError (Option (List Column)) :=
  match st.lookup h with
  | none => .error ⟨-1, "Tried to fetch a dropped statement"⟩
  | some colBuf =>
    if wireStatus = 100 then .ok none
    else if wireStatus ≠ 0 then .error statusErr
    else Except.map some (colBuf.mapM ColumnBuffer.toColumnRes)

/-- True exactly when NativeFbClient::fetch would reach the isc_dsql_fetch
wire call: the handle must first be found in stmt_data_map
(src/rsfbclient-native/src/connection.rs lines 362-368 return before the
unsafe block when the lookup fails). -/
def nativeFetchMakesWireCall (st : NativeSt) (h : Nat) : Bool :=
  (st.lookup h).isSome

/-- Shallow embedding of NativeFbClient::free_statement
(src/rsfbclient-native/src/connection.rs lines 307-328).  `wireRes` is the
outcome of the isc_dsql_free_statement wire call.  On a wire failure the
error is returned and the map is untouched; on success, when the operation
is Drop the entry of the handle is removed from stmt_data_map.  (The wire call
receives the handle by mutable reference; it is modelled as leaving the
passed handle value unchanged.) -/
def freeStatement (st : NativeSt) (wireRes : Except FbError Unit) (h : Nat)
    (op : FreeStmtOp) : Except FbError Unit × NativeSt :=
  match wireRes with
  | .error e => (.error e, st)
  | .ok _ =>
    match op with
    | .drop => (.ok (), ⟨st.stmtDataMap.filter (fun p => p.1 ≠ h)⟩)
    | .close => (.ok (), st)

/-- Shallow embedding of NativeFbClient::detach_database
(src/rsfbclient-native/src/connection.rs lines 100-111):
`if handle != 0 && isc_detach_database(...) != 0 { return Err(...) }; Ok(())`.
`wireRes` is the outcome the isc_detach_database wire call would produce.
The second component records whether the wire call was made: the `&&`
short-circuits, so a zero handle makes no call at all. -/
def detachDatabase (wireRes : Except FbError Unit) (h : Nat) :
    Except FbError Unit × Bool :=
  if h ≠ 0 then
    match wireRes with
    | .error e => (.error e, true)
    | .ok _ => (.ok (), true)
  else (.ok (), false)

/-- Claim C1: when a StmtIter ends in any way — exhaustion, partial consumption,
error mid-fetch, or explicit drop — its teardown runs exactly once and
performs, in order: (1) close the cursor of the statement with the error ignored,
(2) return the statement to the statement cache of the connection, (3)
commit-retaining the transaction.  The lifecycle trace is quantified over
every sequence of fetch outcomes (so every way iteration can end) and over
every combination of teardown outcomes (so a failing teardown step changes
nothing: each error is discarded and the remaining steps still run). -/
theorem stmtIter_teardown_once_ordered
    (fetchOutcomes : List (Except FbError (Option (List Int))))
    (env : TeardownEnv) :
    iterLifecycle fetchOutcomes env =
      fetchOutcomes.map (fun _ => Ev.fetchEv) ++
        [Ev.closeCursorEv, Ev.insertAndCloseEv, Ev.trOpEv TrOp.commitRetaining] ∧
    (iterLifecycle fetchOutcomes env).count Ev.closeCursorEv = 1 ∧
    (iterLifecycle fetchOutcomes env).count Ev.insertAndCloseEv = 1 ∧
    (iterLifecycle fetchOutcomes env).count (Ev.trOpEv TrOp.commitRetaining) = 1 := by
  refine ⟨rfl, ?_, ?_, ?_⟩ <;>
    simp [iterLifecycle, stmtIterDropTrace, List.count_append, List.count_cons,
      List.count_eq_zero, List.mem_map]

/-- Claim C2: Connection::execute returns the checked-out statement to the cache
via insert_and_close exactly once, whatever the outcome of the backend
execution (env.execRes is unconstrained, so this covers both the success and
the failure of the execution), provided the statement was actually checked
out (begin and get_or_prepare succeeded). -/
theorem execute_returns_statement_to_cache (env : ExecEnv)
    (hb : env.beginRes = .ok ()) (hp : env.prepRes = .ok ()) :
    (connExecute env).2.count Ev.insertAndCloseEv = 1 := by
  rcases env with ⟨b, p, ex, ins, cm⟩
  simp only at hb hp
  subst hb hp
  cases ex <;> cases ins <;> cases cm <;>
    simp [connExecute, List.count_cons, List.count_nil]

/-- Witness for C2 at a concrete input: an environment whose backend
execution fails still records exactly one cache return. -/
theorem execute_returns_statement_to_cache_witness :
    (connExecute ⟨.ok (), .ok (), .error ⟨335544569, "Dynamic SQL Error"⟩,
      .ok (), .ok ()⟩).2.count Ev.insertAndCloseEv = 1 :=
  execute_returns_statement_to_cache
    ⟨.ok (), .ok (), .error ⟨335544569, "Dynamic SQL Error"⟩, .ok (), .ok ()⟩
    rfl rfl

/-- Claim C6: each advance of the streaming iterator makes exactly one backend
fetch round trip, and the iterator yields none (ends the sequence) exactly
when the native backend signals no more rows — the statement handle is live
in stmt_data_map and the wire fetch status is the end-of-data sentinel 100. -/
theorem next_single_fetch_ends_on_sentinel {R : Type}
    (st : NativeSt) (ws : Int) (statusErr : FbError) (h : Nat)
    (conv : List Int → Except FbError R) :
    (stmtIterNextCallTrace (nativeFetch st ws statusErr h)).count Ev.fetchEv = 1 ∧
    (stmtIterNext (nativeFetch st ws statusErr h) conv = none ↔
      (st.lookup h).isSome ∧ ws = 100) := by
  constructor
  · cases hf : nativeFetch st ws statusErr h with
    | error e => simp [stmtIterNextCallTrace]
    | ok o => cases o <;> simp [stmtIterNextCallTrace]
  · cases hl : st.lookup h with
    | none => simp [stmtIterNext, nativeFetch, hl]
    | some colBuf =>
      by_cases h100 : ws = 100
      · simp [stmtIterNext, nativeFetch, hl, h100]
      · by_cases h0 : ws = 0
        · have hnf : nativeFetch st ws statusErr h =
              Except.map some (colBuf.mapM ColumnBuffer.toColumnRes) := by
            simp only [nativeFetch, hl]
            rw [if_neg h100, if_neg (by simp [h0])]
          rw [hnf]
          cases hm : colBuf.mapM ColumnBuffer.toColumnRes with
          | error e => simp [stmtIterNext, Except.map, hl, h100]
          | ok cols =>
            cases hc : conv cols <;>
              simp [stmtIterNext, Except.map, hc, hl, h100]
        · simp [stmtIterNext, nativeFetch, hl, h100, h0]

/-- Claim C7: calling close() on a Connection runs the cache-cleanup-then-detach
teardown exactly once; because close() wraps the value in ManuallyDrop, the
destructor contributes nothing afterwards, so the lifecycle trace contains
exactly one detach — never two. -/
theorem close_detaches_exactly_once (env : ConnEnv) :
    (closeLifecycle env).2 = [Ev.closeAllEv, Ev.detachEv] ∧
    (closeLifecycle env).2.count Ev.detachEv = 1 ∧
    (closeLifecycle env).1 = env.detachRes := by
  rcases env with ⟨d⟩
  cases d <;>
    simp [closeLifecycle, connClose, cleanupAndDetach, connDropTrace,
      List.count_cons, List.count_nil]

/-- Claim C8: fetching through a statement handle that is not present in the native
client stmt_data_map fails with the dropped-statement logic error, without
making the wire fetch call; and a successful free_statement with the Drop
operation removes the handle from the map, so a subsequent fetch on it fails
that way. -/
theorem fetch_dropped_statement_fails (st st2 : NativeSt) (ws : Int)
    (se : FbError) (h : Nat) (hh : st.lookup h = none) :
    nativeFetch st ws se h =
      .error ⟨-1, "Tried to fetch a dropped statement"⟩ ∧
    nativeFetchMakesWireCall st h = false ∧
    (freeStatement st2 (.ok ()) h FreeStmtOp.drop).2.lookup h = none := by
  refine ⟨?_, ?_, ?_⟩
  · simp [nativeFetch, hh]
  · simp [nativeFetchMakesWireCall, hh]
  · simp only [freeStatement, NativeSt.lookup]
    rw [List.find?_eq_none.mpr]
    · rfl
    · intro p hp
      have := (List.mem_filter.mp hp).2
      simpa using this

/-- Witness for C8 at a concrete input: an empty stmt_data_map and handle 5. -/
theorem fetch_dropped_statement_fails_witness :
    nativeFetch ⟨[]⟩ 0 ⟨0, ""⟩ 5 =
      .error ⟨-1, "Tried to fetch a dropped statement"⟩ ∧
    nativeFetchMakesWireCall ⟨[]⟩ 5 = false ∧
    (freeStatement ⟨[(5, [])]⟩ (.ok ()) 5 FreeStmtOp.drop).2.lookup 5 = none :=
  fetch_dropped_statement_fails ⟨[]⟩ ⟨[(5, [])]⟩ 0 ⟨0, ""⟩ 5 rfl

/-- Claim C9: in execute_returnable the single returned row is retrieved (execute2)
and converted (FromRow::try_from) before the transaction commit: when
retrieval or conversion fails the commit round trip never happens, and
whenever the commit round trip appears in the trace it is the final call,
after the conversion. -/
theorem execute_returnable_converts_before_commit {T R : Type}
    (env : ExecRetEnv T R) :
    (∀ e, env.exec2Res = .error e →
      Ev.trOpEv TrOp.commit ∉ (connExecuteReturnable env).2) ∧
    (∀ row e, env.exec2Res = .ok row → env.convRes row = .error e →
      Ev.trOpEv TrOp.commit ∉ (connExecuteReturnable env).2) ∧
    (Ev.trOpEv TrOp.commit ∈ (connExecuteReturnable env).2 →
      (connExecuteReturnable env).2 =
        [.beginEv, .getOrPrepareEv, .execute2Ev, .insertAndCloseEv,
          .convertEv, .trOpEv .commit]) := by
  rcases env with ⟨b, p, ex2, ins, cv, cm⟩
  refine ⟨?_, ?_, ?_⟩
  · intro e he
    subst he
    cases b <;> cases p <;> cases ins <;> simp [connExecuteReturnable]
  · intro row e he hc
    subst he
    have hc2 : cv row = Except.error e := hc
    cases b <;> cases p <;> cases ins <;> simp [connExecuteReturnable, hc2]
  · intro hmem
    cases b with
    | error e => simp [connExecuteReturnable] at hmem
    | ok _ =>
      cases p with
      | error e => simp [connExecuteReturnable] at hmem
      | ok _ =>
        cases ins with
        | error e => simp [connExecuteReturnable] at hmem
        | ok _ =>
          cases ex2 with
          | error e => simp [connExecuteReturnable] at hmem
          | ok row =>
            cases hc : cv row with
            | error e => simp [connExecuteReturnable, hc] at hmem
            | ok r => cases cm <;> simp [connExecuteReturnable, hc]

/-- Witness for C9 at a concrete input: a failing conversion means the trace
holds no commit. -/
theorem execute_returnable_converts_before_commit_witness :
    Ev.trOpEv TrOp.commit ∉
      (connExecuteReturnable (⟨.ok (), .ok (), .ok 7,
        .ok (), fun _ => .error ⟨3, "conversion"⟩, .ok ()⟩ :
          ExecRetEnv Nat Nat)).2 :=
  (execute_returnable_converts_before_commit
    (⟨.ok (), .ok (), .ok 7, .ok (), fun _ => .error ⟨3, "conversion"⟩,
      .ok ()⟩ : ExecRetEnv Nat Nat)).2.1 7 ⟨3, "conversion"⟩ rfl rfl

/-- Claim C10: the native detach_database is a no-op returning Ok on the zero
(already-invalidated) handle: the wire detach call is made — and a backend
error is possible — only when the handle is non-zero. -/
theorem detach_zero_handle_noop (wr : Except FbError Unit) (h : Nat) :
    detachDatabase wr 0 = (.ok (), false) ∧
    ((detachDatabase wr h).2 = true → h ≠ 0) ∧
    (∀ e, (detachDatabase wr h).1 = .error e → h ≠ 0) := by
  refine ⟨?_, ?_, ?_⟩
  · simp [detachDatabase]
  · intro hc
    by_cases hz : h = 0 <;> cases wr <;> simp_all [detachDatabase]
  · intro e he
    by_cases hz : h = 0 <;> cases wr <;> simp_all [detachDatabase]

/-- Witness for C10 at a concrete input: the zero handle returns Ok with no
wire call even when the wire layer would fail, and a visible wire call on
handle 3 certifies the handle was non-zero. -/
theorem detach_zero_handle_noop_witness :
    detachDatabase (.error ⟨5, "network"⟩) 0 = (.ok (), false) ∧
    (3 : Nat) ≠ 0 :=
  ⟨(detach_zero_handle_noop (.error ⟨5, "network"⟩) 3).1,
    (detach_zero_handle_noop (.error ⟨5, "network"⟩) 3).2.1 rfl⟩

/-- Counterexample to C3: in Connection::execute, when the backend execution
fails with one error and the cache return (insert_and_close) fails with
another, the caller receives the cache-return error — the `?` on
insert_and_close propagates it, replacing the primary execution error rather
than swallowing it. -/
theorem c3_teardown_error_masks_primary_counterexample :
    (connExecute ⟨.ok (), .ok (), .error ⟨1, "primary"⟩,
      .error ⟨2, "cache return"⟩, .ok ()⟩).1 = .error ⟨2, "cache return"⟩ ∧
    (connExecute ⟨.ok (), .ok (), .error ⟨1, "primary"⟩,
      .error ⟨2, "cache return"⟩, .ok ()⟩).1 ≠ .error ⟨1, "primary"⟩ := by
  decide

/-- Claim C3 as amended: for every failing execute or query_iter call the statement
is returned to the cache (insert_and_close is invoked) before any error is
surfaced; the primary error is surfaced when the cache return succeeds, but
an error of the cache-return step itself is propagated with `?` and replaces
the primary error.  (Teardown errors are swallowed only in the StmtIter drop
teardown, `stmtIterDropTrace`.) -/
theorem failing_pipeline_returns_statement_then_error
    (env : ExecEnv) (qenv : QueryEnv) (e f : FbError)
    (hb : env.beginRes = .ok ()) (hp : env.prepRes = .ok ())
    (he : env.execRes = .error e)
    (qb : qenv.beginRes = .ok ()) (qp : qenv.prepRes = .ok ())
    (qe : qenv.queryRes = .error f) :
    Ev.insertAndCloseEv ∈ (connExecute env).2 ∧
    (env.insertRes = .ok () → (connExecute env).1 = .error e) ∧
    (∀ g, env.insertRes = .error g → (connExecute env).1 = .error g) ∧
    Ev.insertAndCloseEv ∈ (queryIter qenv).2 ∧
    (qenv.insertRes = .ok () → (queryIter qenv).1 = .error f) ∧
    (∀ g, qenv.insertRes = .error g → (queryIter qenv).1 = .error g) := by
  rcases env with ⟨b, p, ex, ins, cm⟩
  rcases qenv with ⟨b2, p2, q2, ins2⟩
  simp only at hb hp he qb qp qe
  subst hb hp he qb qp qe
  refine ⟨?_, ?_, ?_, ?_, ?_, ?_⟩ <;>
    cases ins <;> cases ins2 <;> simp [connExecute, queryIter]

/-- Witness for the amended C3 at a concrete input: with a failing execution
and a succeeding cache return, the primary error is the one surfaced and the
cache return is in the trace. -/
theorem failing_pipeline_returns_statement_then_error_witness :
    Ev.insertAndCloseEv ∈
      (connExecute ⟨.ok (), .ok (), .error ⟨1, "primary"⟩, .ok (), .ok ()⟩).2 ∧
    (connExecute ⟨.ok (), .ok (), .error ⟨1, "primary"⟩, .ok (), .ok ()⟩).1 =
      .error ⟨1, "primary"⟩ :=
  ⟨(failing_pipeline_returns_statement_then_error
      ⟨.ok (), .ok (), .error ⟨1, "primary"⟩, .ok (), .ok ()⟩
      ⟨.ok (), .ok (), .error ⟨9, "q"⟩, .ok ()⟩
      ⟨1, "primary"⟩ ⟨9, "q"⟩ rfl rfl rfl rfl rfl rfl).1,
    (failing_pipeline_returns_statement_then_error
      ⟨.ok (), .ok (), .error ⟨1, "primary"⟩, .ok (), .ok ()⟩
      ⟨.ok (), .ok (), .error ⟨9, "q"⟩, .ok ()⟩
      ⟨1, "primary"⟩ ⟨9, "q"⟩ rfl rfl rfl rfl rfl rfl).2.1 rfl⟩

/-- Counterexample to C4: the closure returns Ok 5 and commit-retaining is
duly invoked, but because commit-retaining itself fails, with_transaction
returns the commit error rather than the own Ok result of the closure — refuting
the conjunct of C4 that the result of the closure is always returned to the
caller. -/
theorem c4_withTransaction_result_counterexample :
    Ev.trOpEv TrOp.commitRetaining ∈
      (withTransaction (⟨.ok (), .ok 5, .error ⟨7, "commit failed"⟩,
        .ok ()⟩ : WithTrEnv Nat)).2 ∧
    (withTransaction (⟨.ok (), .ok 5, .error ⟨7, "commit failed"⟩,
      .ok ()⟩ : WithTrEnv Nat)).1 ≠ .ok 5 := by
  decide

/-- Claim C4 as amended: for every closure passed to with_transaction, when the
backend begin succeeds the closure runs on the new transaction;
commit-retaining is performed if and only if the closure returned Ok and
rollback-retaining if and only if it returned Err; the result of the closure
(value or error) is returned to the caller provided the performed retaining
operation succeeds — when that operation fails, its error is returned
instead (the `?` on both retaining calls propagates it). -/
theorem withTransaction_branches {T : Type} (env : WithTrEnv T)
    (hb : env.beginRes = .ok ()) :
    Ev.closureEv ∈ (withTransaction env).2 ∧
    (Ev.trOpEv TrOp.commitRetaining ∈ (withTransaction env).2 ↔
      ∃ v, env.closureRes = .ok v) ∧
    (Ev.trOpEv TrOp.rollbackRetaining ∈ (withTransaction env).2 ↔
      ∃ e, env.closureRes = .error e) ∧
    (∀ v, env.closureRes = .ok v → env.commitRetRes = .ok () →
      (withTransaction env).1 = .ok v) ∧
    (∀ v e, env.closureRes = .ok v → env.commitRetRes = .error e →
      (withTransaction env).1 = .error e) ∧
    (∀ e, env.closureRes = .error e → env.rollbackRetRes = .ok () →
      (withTransaction env).1 = .error e) ∧
    (∀ e f, env.closureRes = .error e → env.rollbackRetRes = .error f →
      (withTransaction env).1 = .error f) := by
  rcases env with ⟨b, c, cr, rr⟩
  simp only at hb
  subst hb
  refine ⟨?_, ?_, ?_, ?_, ?_, ?_, ?_⟩ <;>
    cases c <;> cases cr <;> cases rr <;> simp [withTransaction]

/-- Witness for the amended C4 at a concrete input: a closure returning Ok 5
with succeeding finalization yields Ok 5, and commit-retaining is in the
trace. -/
theorem withTransaction_branches_witness :
    Ev.closureEv ∈
      (withTransaction (⟨.ok (), .ok 5, .ok (), .ok ()⟩ : WithTrEnv Nat)).2 ∧
    (withTransaction (⟨.ok (), .ok 5, .ok (), .ok ()⟩ : WithTrEnv Nat)).1 =
      .ok 5 :=
  ⟨(withTransaction_branches
      (⟨.ok (), .ok 5, .ok (), .ok ()⟩ : WithTrEnv Nat) rfl).1,
    (withTransaction_branches
      (⟨.ok (), .ok 5, .ok (), .ok ()⟩ : WithTrEnv Nat) rfl).2.2.2.1 5 rfl rfl⟩

/-- Counterexample to C5: in the one-shot pipeline Connection::execute, even
when every sub-operation succeeds, no commit-retaining round trip appears in
the trace — the transaction is finalized with the terminal commit
(`tr.commit()?` in the source), which consumes it, not with the retaining
variant. -/
theorem c5_execute_terminal_commit_counterexample :
    Ev.trOpEv TrOp.commitRetaining ∉
      (connExecute ⟨.ok (), .ok (), .ok (), .ok (), .ok ()⟩).2 ∧
    Ev.trOpEv TrOp.commit ∈
      (connExecute ⟨.ok (), .ok (), .ok (), .ok (), .ok ()⟩).2 := by
  decide

/-- Claim C5 as amended: after a statement execution through the one-shot pipeline
(Connection::execute), the transaction — freshly begun for this call — is
finalized with the terminal commit, as the last call of the pipeline; the
retaining variant is never invoked there (it is used by the StmtIter
teardown and by with_transaction instead). -/
theorem execute_finalizes_with_terminal_commit (env : ExecEnv)
    (hb : env.beginRes = .ok ()) (hp : env.prepRes = .ok ())
    (he : env.execRes = .ok ()) (hi : env.insertRes = .ok ()) :
    (connExecute env).2 =
      [.beginEv, .getOrPrepareEv, .executeEv, .insertAndCloseEv,
        .trOpEv .commit] ∧
    Ev.trOpEv TrOp.commitRetaining ∉ (connExecute env).2 := by
  rcases env with ⟨b, p, ex, ins, cm⟩
  simp only at hb hp he hi
  subst hb hp he hi
  cases cm <;> simp [connExecute]

/-- Witness for the amended C5 at a concrete input: the all-succeeding
environment produces the five-step trace ending in the terminal commit. -/
theorem execute_finalizes_with_terminal_commit_witness :
    (connExecute ⟨.ok (), .ok (), .ok (), .ok (), .ok ()⟩).2 =
      [.beginEv, .getOrPrepareEv, .executeEv, .insertAndCloseEv,
        .trOpEv .commit] :=
  (execute_finalizes_with_terminal_commit
    ⟨.ok (), .ok (), .ok (), .ok (), .ok ()⟩ rfl rfl rfl rfl).1

end Rsfbclient
